import Mathlib

/-!
# Verification of the TuCanChat WhatsApp translator bot

Shallow embedding of the bot's onboarding state machine, message
dispatcher, translation pipeline and Stripe billing webhook, translated
from the repository's JavaScript sources:

* `Srv0` embeds `src/unnamed/part_000` (the complete "TuCan server.js"
  variant: pay-wall quick replies, reset, pay-wall gate, wizard, pipeline).
* `Srv1` embeds the first document of `src/unnamed/part_001` (the variant
  that runs the wizard steps *before* the pay-wall / reset commands).

External services (Whisper, Google detect/translate/TTS, Supabase storage,
Stripe, Twilio) are modelled by an oracle `Env` that supplies each call's
outcome; `none` / `false` means the call threw.  Outbound Twilio messages
are recorded as an abstract `Body` value, one constructor per string-building
site of the source.
-/

set_option maxHeartbeats 1000000

namespace WhatsappBot

/-! ## Shared data model -/

/-- One entry of the static 5-language menu (`MENU`, part_000 lines 148-154). -/
structure MenuEntry where
  name : String
  code : String
deriving Repr, DecidableEq

/-- `MENU` — digit keys `"1".."5"` mapped to language name/code
(part_000 lines 148-154, identical in part_001 lines 51-57). -/
def MENU : List (String × MenuEntry) :=
  [("1", ⟨"English", "en"⟩),
   ("2", ⟨"Spanish", "es"⟩),
   ("3", ⟨"French", "fr"⟩),
   ("4", ⟨"Portuguese", "pt"⟩),
   ("5", ⟨"German", "de"⟩)]

/-- ASCII lower-casing, modelling JS `toLowerCase()` / the `/i` regex flag
(the sources only compare ASCII command words and menu names). -/
def lowerStr (s : String) : String := String.mk (s.data.map Char.toLower)

/-- JS `String.prototype.trim()` (whitespace stripped from both ends). -/
def jsTrim (s : String) : String :=
  String.mk (((s.data.dropWhile Char.isWhitespace).reverse.dropWhile
    Char.isWhitespace).reverse)

/-- JS `s.slice(0,2)` — the first two characters. -/
def slice02 (s : String) : String := String.mk (s.data.take 2)

/-- Substring test on character lists (used to model an unanchored
JS regex alternative such as `/male/`). -/
def listContainsSub : List Char → List Char → Bool
  | [], pat => pat.isEmpty
  | c :: t, pat => pat.isPrefixOf (c :: t) || listContainsSub t pat

/-- Case-insensitive substring test: models `/pat/i.test(t)` for a literal
lower-case pattern `pat`. -/
def hasSubCI (t pat : String) : Bool := listContainsSub (lowerStr t).data pat.data

/-- A user row of the `users` table (columns used by the sources;
`plan = ""` stands for SQL `NULL`, making `!user.plan` truthy in JS). -/
structure UserRow where
  phone_number : String
  language_step : String
  ui_lang : Option String := none
  source_lang : Option String := none
  target_lang : Option String := none
  voice_gender : Option String := none
  plan : String := "FREE"
  free_used : Nat := 0
  stripe_cust_id : Option String := none
  stripe_sub_id : Option String := none
  id : String := ""
deriving Repr, DecidableEq

/-- A row of the append-only `translations` table
(`logRow`, part_000 line 337 with the insert at lines 467-473). -/
structure LogRow where
  phone_number : String
  original_text : String
  translated_text : String
  language_from : String
  language_to : String
deriving Repr, DecidableEq

/-- The two temporary files of the media branch:
`/tmp/{uuid}{ext}` (`raw`) and its transcoded `.wav` (`wav`). -/
inductive TmpFile
  | raw
  | wav
deriving Repr, DecidableEq

/-- Which branch of `handleIncoming` produced the reply (an annotation of
the `return` statement taken; it adds no behaviour). -/
inductive Route
  | noSender
  | billing
  | reset
  | paywall
  | wizardUi
  | wizardTarget
  | wizardGender
  | guard
  | pipeline
deriving Repr, DecidableEq

/-- Outbound Twilio message bodies, one constructor per string-building
site of the sources (the constructor argument is the language code the
site passes to its i18n lookup). -/
inductive Body
  /-- the fixed English welcome + digit menu (part_000 lines 374-377). -/
  | welcome
  /-- `tr(lang,"how")` — the how-it-works explainer (part_000 line 399). -/
  | how (lang : String)
  /-- the receive-language prompt plus digit menu (part_000 line 400;
  re-sent with the user's ui language on invalid target input). -/
  | receiveMenu (lang : String)
  /-- `tr("en","reply1to5") + menuMsg("Please choose your language:")`
  (part_000 line 389). -/
  | uiRetry
  /-- `tr(ui,"reply1to5") + menuMsg(tr(ui,"receive"))` (part_000 line 408). -/
  | targetRetry (lang : String)
  /-- `tr(ui,"targetDiff") + menuMsg(tr(ui,"receive"))` (part_000 line 410). -/
  | targetDiff (lang : String)
  /-- `tr(ui,"voice")` — the gender prompt (part_000 line 415). -/
  | voicePrompt (lang : String)
  /-- `tr(ui,"genderErr")` (part_000 line 424). -/
  | genderErr (lang : String)
  /-- `tr(ui,"setupDone")` (part_000 line 428). -/
  | setupDone (lang : String)
  /-- `tr(ui,"paywall")` (part_000 line 382). -/
  | paywall (lang : String)
  /-- the fixed English `PAYWALL` constant of part_001 (line 539). -/
  | paywallConst
  /-- "Tap to pay → {link}" (part_000 line 360). -/
  | payLink (url : String)
  /-- "⚠️ Payment link error. Try again later." (part_000 line 363). -/
  | payLinkErr
  /-- "⚠️ Setup incomplete. Text *reset* to start over." (part_000 line 434). -/
  | setupIncomplete
  /-- "⚠️ Send text or a voice note." (part_000 line 456). -/
  | sendTextOrVoice
  /-- "🗣 {original}" — the transcript echo (part_000 line 478). -/
  | heard (original : String)
  /-- the bare translated text (part_000 lines 476 and 479). -/
  | translated (t : String)
  /-- the synthesized-audio media message (part_000 line 483). -/
  | audio (url : String)
deriving Repr, DecidableEq

/-- Oracle for the outcome of every external call one run of
`handleIncoming` may perform.  `none` / `false` means the call threw after
its own internal fallbacks:

* `fetch` — the Twilio media download (`some contentType` on success);
* `toWavOk` — the ffmpeg transcode (`toWav`, part_000 lines 208-211);
* `whisper` — the `whisper` helper (part_000 lines 212-228), which already
  retries `whisper-1` after `whisper-large-v3` and slices the reported
  language to 2 chars; `(txt, lang)` with `lang = ""` when absent;
* `detect` — `detectLang` (part_000 lines 229-233), full detection string;
* `translate` — `translate text dest` (part_000 lines 234-244);
* `ttsOk` — the `tts` helper (part_000 lines 276-293) after its three-tier
  voice fallback;
* `upload` — `uploadAudio` (part_000 lines 299-310), public URL on success;
* `newCustId` — `stripe.customers.create` inside `ensureCustomer`
  (part_000 lines 312-317);
* `session` — `stripe.checkout.sessions.create` (part_000 lines 318-329). -/
structure Env where
  fetch : Option String := none
  toWavOk : Bool := false
  whisper : Option (String × String) := none
  detect : String → Option String := fun _ => none
  translate : String → String → Option String := fun _ _ => none
  ttsOk : Bool := false
  upload : Option String := none
  newCustId : Option String := none
  session : Option String := none

/-- The observable result of one `handleIncoming` run: the final user row
(`none` only when no sender id was given), the ordered outbound messages,
inserted log rows, temp-file creations/deletions, whether the async
function rejected (`threw`), and the branch taken. -/
structure HRes where
  user : Option UserRow
  sent : List Body := []
  logs : List LogRow := []
  created : List TmpFile := []
  deleted : List TmpFile := []
  threw : Bool := false
  route : Route
deriving Repr, DecidableEq

/-- `checkoutUrl` (part_000 lines 318-329) together with the row mutation
done by `ensureCustomer` (lines 312-317): an existing customer id is
reused; otherwise one is created and persisted on the row (even if the
subsequent session creation fails).  Returns the checkout URL on success. -/
def checkoutUrl (env : Env) (u : UserRow) : Option String × UserRow :=
  match u.stripe_cust_id with
  | some _ => (env.session, u)
  | none =>
    match env.newCustId with
    | none => (none, u)
    | some cid => (env.session, { u with stripe_cust_id := some cid })

/-- Lines 458-484 of part_000 (identical in part_001): destination flip,
translate, usage increment + log row, then the 1-part (pure text) or up to
3-part (voice note) reply; TTS/upload failure is caught and only drops the
third message. -/
def pipelineTail (env : Env) (user : UserRow) (phone : String) (num : Nat)
    (isFree : Bool) (src tgt : String)
    (created deleted : List TmpFile) (original detected : String) : HRes :=
  let dest := if detected = tgt then src else tgt
  match env.translate original dest with
  | none =>
    { user := some user, created := created, deleted := deleted,
      threw := true, route := .pipeline }
  | some tx =>
    let user' := if isFree then { user with free_used := user.free_used + 1 }
                 else user
    let lg : LogRow :=
      { phone_number := phone, original_text := original,
        translated_text := tx, language_from := detected, language_to := dest }
    if num = 0 then
      { user := some user', logs := [lg], sent := [.translated tx],
        created := created, deleted := deleted, route := .pipeline }
    else if env.ttsOk then
      match env.upload with
      | some url =>
        { user := some user', logs := [lg],
          sent := [.heard original, .translated tx, .audio url],
          created := created, deleted := deleted, route := .pipeline }
      | none =>
        { user := some user', logs := [lg],
          sent := [.heard original, .translated tx],
          created := created, deleted := deleted, route := .pipeline }
    else
      { user := some user', logs := [lg],
        sent := [.heard original, .translated tx],
        created := created, deleted := deleted, route := .pipeline }

/-- The translation phase shared verbatim by part_000 (lines 437-484) and
part_001 (lines 551-597): media download → transcode → whisper →
detect → destination flip → translate → usage/log → 1- or 3-part reply. -/
def translationPhase (env : Env) (user : UserRow) (phone text : String)
    (num : Nat) (mediaUrl : Option String) (isFree : Bool)
    (src tgt : String) : HRes :=
  if 0 < num ∧ mediaUrl.isSome then
    -- lines 439-451: fetch bytes, sniff extension, write raw, transcode
    match env.fetch with
    | none => { user := some user, threw := true, route := .pipeline }
    | some _ctype =>
      -- the sniffed extension only affects the temp-file name
      if env.toWavOk then
        match env.whisper with
        | none =>
          -- both whisper models threw: `finally` unlinks, error propagates
          { user := some user, created := [.raw, .wav], deleted := [.raw, .wav],
            threw := true, route := .pipeline }
        | some (txt, lang) =>
          match (if lang = "" then (env.detect txt).map slice02
                 else some lang) with
          | none =>
            -- `detectLang` threw inside the try: `finally` unlinks, rethrow
            { user := some user, created := [.raw, .wav], deleted := [.raw, .wav],
              threw := true, route := .pipeline }
          | some d =>
            if txt = "" then
              { user := some user, created := [.raw, .wav], deleted := [.raw, .wav],
                sent := [.sendTextOrVoice], route := .pipeline }
            else
              pipelineTail env user phone num isFree src tgt
                [.raw, .wav] [.raw, .wav] txt d
      else
        -- `toWav` rejected before the try/finally: the raw file is left behind
        { user := some user, created := [.raw], threw := true, route := .pipeline }
  else if text ≠ "" then
    match (env.detect text).map slice02 with
    | none => { user := some user, threw := true, route := .pipeline }
    | some d => pipelineTail env user phone num isFree src tgt [] [] text d
  else
    { user := some user, sent := [.sendTextOrVoice], route := .pipeline }

/-! ## Srv0 — `src/unnamed/part_000` ("TuCan server.js") -/

namespace Srv0

/-- `pickLang` (part_000 lines 158-163): a leading digit of the trimmed
text selects a menu entry; otherwise the *untrimmed* text, lower-cased,
is matched against a language code or name. -/
def pickLang (txt : String) : Option MenuEntry :=
  let firstDigit : Option MenuEntry :=
    match (jsTrim txt).data with
    | c :: _ => if c.isDigit then (MENU.lookup (String.singleton c)) else none
    | [] => none
  match firstDigit with
  | some e => some e
  | none =>
    let lc := lowerStr txt
    (MENU.map Prod.snd).find? (fun o => o.code = lc ∨ lowerStr o.name = lc)

/-- The row created for an unknown sender
(part_000 lines 348-352: `language_step:"ui"`, `plan:"FREE"`, `free_used:0`). -/
def initUser (phone : String) : UserRow :=
  { phone_number := phone, language_step := "ui", plan := "FREE", free_used := 0 }

/-- `/^1$/.test(text) || /male|masculina|männlich/i.test(text)`
(part_000 line 422). -/
def maleInput (text : String) : Bool :=
  text = "1" || hasSubCI text "male" || hasSubCI text "masculina" ||
    hasSubCI text "männlich"

/-- `/^2$/.test(text) || /female|femenina|weiblich/i.test(text)`
(part_000 line 423). -/
def femaleInput (text : String) : Bool :=
  text = "2" || hasSubCI text "female" || hasSubCI text "femenina" ||
    hasSubCI text "weiblich"

/-- `/^(reset|change language)$/i.test(text)` (part_000 line 369). -/
def isResetText (text : String) : Prop :=
  lowerStr text = "reset" ∨ lowerStr text = "change language"

instance (text : String) : Decidable (isResetText text) := by
  unfold isResetText; infer_instance

/-- `handleIncoming` (part_000 lines 342-485).  Branch order as in the
source: missing sender → user fetch/create → pay-wall quick replies →
reset → pay-wall gate → wizard steps `ui`/`target`/`gender` →
incomplete-setup guard → translation phase. -/
def handleIncoming (env : Env) (userOpt : Option UserRow)
    (phone text : String) (num : Nat) (mediaUrl : Option String) : HRes :=
  if phone = "" then { user := none, route := .noSender }
  else
  let user := userOpt.getD (initUser phone)
  let isFree := user.plan = "" || user.plan = "FREE"
  -- lines 356-366: pay-wall quick replies
  if (text = "1" ∨ text = "2" ∨ text = "3") ∧ isFree = true ∧ 5 ≤ user.free_used then
    match checkoutUrl env user with
    | (some link, u') => { user := some u', sent := [.payLink link], route := .billing }
    | (none, u') => { user := some u', sent := [.payLinkErr], route := .billing }
  -- lines 369-379: reset
  else if isResetText text then
    { user := some { user with
                     language_step := "ui", source_lang := none,
                     target_lang := none, voice_gender := none, ui_lang := none },
      sent := [.welcome], route := .reset }
  -- line 382: pay-wall gate
  else if isFree = true ∧ 5 ≤ user.free_used then
    { user := some user, sent := [.paywall (user.ui_lang.getD "en")],
      route := .paywall }
  -- lines 386-402: STEP 0, choose ui / own language
  else if user.language_step = "ui" then
    match pickLang text with
    | none => { user := some user, sent := [.uiRetry], route := .wizardUi }
    | some c =>
      { user := some { user with
                       ui_lang := some c.code, source_lang := some c.code,
                       language_step := "target" },
        sent := [.how c.code, .receiveMenu c.code], route := .wizardUi }
  else
    let ui := user.ui_lang.getD "en"
    -- lines 406-417: STEP 1, target / receive language
    if user.language_step = "target" then
      match pickLang text with
      | none => { user := some user, sent := [.targetRetry ui], route := .wizardTarget }
      | some c =>
        if user.source_lang = some c.code then
          { user := some user, sent := [.targetDiff ui], route := .wizardTarget }
        else
          { user := some { user with
                           target_lang := some c.code,
                           language_step := "gender" },
            sent := [.voicePrompt ui], route := .wizardTarget }
    -- lines 420-430: STEP 2, voice gender
    else if user.language_step = "gender" then
      let g0 : Option String := if maleInput text then some "MALE" else none
      let g : Option String := if femaleInput text then some "FEMALE" else g0
      match g with
      | none => { user := some user, sent := [.genderErr ui], route := .wizardGender }
      | some gv =>
        { user := some { user with voice_gender := some gv, language_step := "ready" },
          sent := [.setupDone ui], route := .wizardGender }
    else
      -- lines 433-435: incomplete-setup guard
      match user.source_lang, user.target_lang, user.voice_gender with
      | some src, some tgt, some _g =>
        translationPhase env user phone text num mediaUrl isFree src tgt
      | _, _, _ =>
        { user := some user, sent := [.setupIncomplete], route := .guard }

/-! ### Stripe webhook (part_000 lines 169-201) -/

/-- The `checkout.session.completed` payload fields read by the handler. -/
structure StripeSession where
  tier : String
  customer : String
  subscription : Option String := none
  uid : Option String := none
deriving Repr, DecidableEq

/-- The two event shapes the webhook inspects. -/
inductive StripeEvent
  | checkoutCompleted (s : StripeSession)
  | subscriptionDeleted (subId : String)
  | other
deriving Repr, DecidableEq

/-- `s.metadata.tier==="monthly"?"MONTHLY":s.metadata.tier==="annual"?"ANNUAL":"LIFETIME"`
(part_000 lines 182-183). -/
def planOfTier (tier : String) : String :=
  if tier = "monthly" then "MONTHLY" else if tier = "annual" then "ANNUAL"
  else "LIFETIME"

/-- supabase `.update(...).eq(...)` *without* `.select()`: applies the
update to every matching row and resolves with `data = null` — modelled by
returning `none` as the data payload. -/
def dbUpdateWhere (p : UserRow → Bool) (f : UserRow → UserRow)
    (users : List UserRow) : List UserRow × Option (List UserRow) :=
  (users.map (fun u => if p u then f u else u), none)

/-- JS `upd.data?.length===0`: `null?.length` is `undefined`, and
`undefined === 0` is `false`, so a `none` payload never equals zero. -/
def jsLenEqZero : Option (List UserRow) → Bool
  | none => false
  | some l => l.length = 0

/-- The `app.post("/stripe-webhook")` handler (part_000 lines 169-201):
signature verification (`constructEvent`) is abstracted by `sigOk`; on
failure the handler returns 400 having touched nothing.  Returns the HTTP
status and the resulting `users` table. -/
def stripeWebhook (sigOk : Bool) (event : StripeEvent)
    (users : List UserRow) : Nat × List UserRow :=
  if !sigOk then (400, users)
  else
    match event with
    | .checkoutCompleted s =>
      let plan := planOfTier s.tier
      let (users1, upd) := dbUpdateWhere
        (fun u => u.stripe_cust_id = some s.customer)
        (fun u => { u with
                    plan := plan, free_used := 0,
                    stripe_sub_id := s.subscription }) users
      if jsLenEqZero upd then
        -- fallback match by `s.metadata.uid` (lines 189-193); dead in
        -- practice because `upd` carries a `null` data payload
        let (users2, _) := dbUpdateWhere (fun u => some u.id = s.uid)
          (fun u => { u with
                      plan := plan, free_used := 0,
                      stripe_cust_id := some s.customer,
                      stripe_sub_id := s.subscription }) users1
        (200, users2)
      else (200, users1)
    | .subscriptionDeleted subId =>
      (200, (dbUpdateWhere (fun u => u.stripe_sub_id = some subId)
        (fun u => { u with plan := "FREE" }) users).1)
    | .other => (200, users)

/-- The effect of one verified webhook event on one user row (the per-row
view of `stripeWebhook`; see `stripeWebhook_eq_map`). -/
def stripeRowUpdate (event : StripeEvent) (u : UserRow) : UserRow :=
  match event with
  | .checkoutCompleted s =>
    if u.stripe_cust_id = some s.customer then
      { u with
        plan := planOfTier s.tier, free_used := 0,
        stripe_sub_id := s.subscription }
    else u
  | .subscriptionDeleted subId =>
    if u.stripe_sub_id = some subId then { u with plan := "FREE" } else u
  | .other => u

/-- Reachable user rows: a row freshly created for an unknown sender, and
anything obtained from a reachable row by one inbound message (any oracle
outcome) or one verified billing event. -/
inductive Reach : UserRow → Prop
  | init (phone : String) : Reach (initUser phone)
  | msg (u u' : UserRow) (env : Env) (text : String) (num : Nat)
      (mediaUrl : Option String) (hu : Reach u)
      (h : (handleIncoming env (some u) u.phone_number text num mediaUrl).user
            = some u') : Reach u'
  | pay (u : UserRow) (event : StripeEvent) (hu : Reach u) :
      Reach (stripeRowUpdate event u)

end Srv0

/-! ## Srv1 — first document of `src/unnamed/part_001` -/

namespace Srv1

/-- `pickLang` (part_001 lines 59-66): like Srv0's, but the name match is
done on the *trimmed* text lower-cased. -/
def pickLang (txt : String) : Option MenuEntry :=
  let m := jsTrim txt
  let firstDigit : Option MenuEntry :=
    match m.data with
    | c :: _ => if c.isDigit then (MENU.lookup (String.singleton c)) else none
    | [] => none
  match firstDigit with
  | some e => some e
  | none =>
    let lc := lowerStr m
    (MENU.map Prod.snd).find? (fun o => o.code = lc ∨ lowerStr o.name = lc)

/-- The row created for an unknown sender
(part_001 lines 443-448: `language_step:"choose_ui"`). -/
def initUser (phone : String) : UserRow :=
  { phone_number := phone, language_step := "choose_ui", plan := "FREE",
    free_used := 0 }

/-- `t(key, lang) = (L[lang] ?? L.en)[key]` (part_001 line 135): which
string table a site's `lang` argument selects (`null` or an unknown code
falls back to English). -/
def tLang (l : Option String) : String :=
  match l with
  | some x => if (MENU.map (fun p => p.2.code)).contains x then x else "en"
  | none => "en"

/-- `handleIncoming` (part_001 lines 436-598).  Branch order as in this
variant: user fetch/create → wizard steps `choose_ui`/`receive`/`gender` →
pay-wall quick replies → reset → pay-wall gate → incomplete-setup guard →
translation phase.  Note the wizard runs *before* reset and the pay-wall. -/
def handleIncoming (env : Env) (userOpt : Option UserRow)
    (phone text : String) (num : Nat) (mediaUrl : Option String) : HRes :=
  if phone = "" then { user := none, route := .noSender }
  else
  let user := userOpt.getD (initUser phone)
  let isFree := user.plan = "" || user.plan = "FREE"
  -- lines 453-471: 0. first run, choose UI language
  if user.language_step = "choose_ui" then
    match pickLang text with
    | none => { user := some user, sent := [.welcome], route := .wizardUi }
    | some c =>
      { user := some { user with
                       ui_lang := some c.code, source_lang := some c.code,
                       language_step := "receive" },
        sent := [.how c.code, .receiveMenu c.code], route := .wizardUi }
  -- lines 473-495: 1. choose language you receive
  else if user.language_step = "receive" then
    match pickLang text with
    | none =>
      { user := some user, sent := [.receiveMenu (tLang user.ui_lang)],
        route := .wizardTarget }
    | some c =>
      if user.source_lang = some c.code then
        { user := some user, sent := [.receiveMenu (tLang user.ui_lang)],
          route := .wizardTarget }
      else
        { user := some { user with
                         target_lang := some c.code,
                         language_step := "gender" },
          sent := [.voicePrompt (tLang user.ui_lang)], route := .wizardTarget }
  -- lines 497-511: 2. choose voice gender
  else if user.language_step = "gender" then
    let g0 : Option String :=
      if text = "1" || hasSubCI text "male" then some "MALE" else none
    let g : Option String :=
      if text = "2" || hasSubCI text "female" then some "FEMALE" else g0
    match g with
    | none =>
      { user := some user, sent := [.voicePrompt (tLang user.ui_lang)],
        route := .wizardGender }
    | some gv =>
      { user := some { user with
                       voice_gender := some gv, language_step := "ready" },
        sent := [.setupDone (tLang user.ui_lang)], route := .wizardGender }
  -- lines 513-524: 3. pay-wall quick replies
  else if (text = "1" ∨ text = "2" ∨ text = "3") ∧ isFree = true ∧
      5 ≤ user.free_used then
    match checkoutUrl env user with
    | (some link, u') => { user := some u', sent := [.payLink link], route := .billing }
    | (none, u') => { user := some u', sent := [.payLinkErr], route := .billing }
  -- lines 526-535: 4. reset command
  else if lowerStr text = "reset" ∨ lowerStr text = "change language" then
    { user := some { user with
                     language_step := "choose_ui", ui_lang := none,
                     source_lang := none, target_lang := none,
                     voice_gender := none },
      sent := [.welcome], route := .reset }
  -- lines 537-540: 5. pay-wall gate
  else if isFree = true ∧ 5 ≤ user.free_used then
    { user := some user, sent := [.paywallConst], route := .paywall }
  -- lines 542-545: 6. incomplete-setup guard
  else
    match user.source_lang, user.target_lang, user.voice_gender with
    | some src, some tgt, some _g =>
      translationPhase env user phone text num mediaUrl isFree src tgt
    | _, _, _ =>
      { user := some user, sent := [.setupIncomplete], route := .guard }

/-- Reachable user rows of the Srv1 variant. -/
inductive Reach : UserRow → Prop
  | init (phone : String) : Reach (initUser phone)
  | msg (u u' : UserRow) (env : Env) (text : String) (num : Nat)
      (mediaUrl : Option String) (hu : Reach u)
      (h : (handleIncoming env (some u) u.phone_number text num mediaUrl).user
            = some u') : Reach u'

end Srv1

/-- The language-pair invariant of Srv0 (used for claim C4): whenever the
step column is `"ui"` no target language is stored, and whenever both
languages are stored they differ. -/
def LangInv (u : UserRow) : Prop :=
  (u.language_step = "ui" → u.target_lang = none) ∧
  (∀ s t, u.source_lang = some s → u.target_lang = some t → s ≠ t)

/-!
## Theorems

One theorem per claim C1-C10 of the specification review, preceded by the
helper lemmas they share.
-/

/-- C6: a billing-webhook request whose Stripe signature does not verify is
answered with HTTP 400 and leaves every user row untouched; event
processing only happens after successful verification. -/
theorem stripeWebhook_invalid_sig_no_mutation (event : Srv0.StripeEvent)
    (users : List UserRow) :
    Srv0.stripeWebhook false event users = (400, users) := rfl

/-- Helper: the only temp-file traces `translationPhase` can leave:
nothing, the leaked raw file (transcode failed), or both files created and
both deleted. -/
theorem translationPhase_files (env : Env) (user : UserRow)
    (phone text : String) (num : Nat) (mediaUrl : Option String)
    (isFree : Bool) (src tgt : String) :
    ((translationPhase env user phone text num mediaUrl isFree src tgt).created = []
      ∧ (translationPhase env user phone text num mediaUrl isFree src tgt).deleted = []) ∨
    ((translationPhase env user phone text num mediaUrl isFree src tgt).created
        = [TmpFile.raw]
      ∧ (translationPhase env user phone text num mediaUrl isFree src tgt).deleted = []) ∨
    ((translationPhase env user phone text num mediaUrl isFree src tgt).created
        = [TmpFile.raw, TmpFile.wav]
      ∧ (translationPhase env user phone text num mediaUrl isFree src tgt).deleted
        = [TmpFile.raw, TmpFile.wav]) := by
  simp only [translationPhase, pipelineTail]
  repeat' split
  all_goals simp

/-- Helper: the same temp-file trace enumeration lifted to the whole
Srv0 handler (every non-pipeline branch touches no files). -/
theorem handleIncoming_files (env : Env) (userOpt : Option UserRow)
    (phone text : String) (num : Nat) (mediaUrl : Option String) :
    ((Srv0.handleIncoming env userOpt phone text num mediaUrl).created = []
      ∧ (Srv0.handleIncoming env userOpt phone text num mediaUrl).deleted = []) ∨
    ((Srv0.handleIncoming env userOpt phone text num mediaUrl).created = [TmpFile.raw]
      ∧ (Srv0.handleIncoming env userOpt phone text num mediaUrl).deleted = []) ∨
    ((Srv0.handleIncoming env userOpt phone text num mediaUrl).created
        = [TmpFile.raw, TmpFile.wav]
      ∧ (Srv0.handleIncoming env userOpt phone text num mediaUrl).deleted
        = [TmpFile.raw, TmpFile.wav]) := by
  simp only [Srv0.handleIncoming]
  repeat' split
  all_goals first
    | simp
    | exact translationPhase_files _ _ _ _ _ _ _ _ _

/-- C9 (amended): once the transcode to WAV has succeeded — i.e. both
temporary files were created and the `try/finally` block is entered — both
files are deleted on every execution path, success or failure.  (The
original claim fails when the transcode itself fails: see
`tmp_cleanup_cex`.) -/
theorem tmp_cleanup_after_transcode (env : Env) (userOpt : Option UserRow)
    (phone text : String) (num : Nat) (mediaUrl : Option String)
    (h : (Srv0.handleIncoming env userOpt phone text num mediaUrl).created
          = [TmpFile.raw, TmpFile.wav]) :
    (Srv0.handleIncoming env userOpt phone text num mediaUrl).deleted
      = [TmpFile.raw, TmpFile.wav] := by
  rcases handleIncoming_files env userOpt phone text num mediaUrl with
    ⟨h1, _⟩ | ⟨h1, _⟩ | ⟨_, h2⟩
  · rw [h1] at h; cases h
  · rw [h1] at h; cases h
  · exact h2

/-- C9 (counterexample): for a READY user sending a voice note, if the
ffmpeg transcode rejects, the downloaded temp file has been created but no
cleanup runs — the raw file is never deleted (the `try/finally` starts
only after `toWav`). -/
theorem tmp_cleanup_cex :
    ((Srv0.handleIncoming ({ fetch := some "audio/ogg" } : Env)
        (some { phone_number := "p", language_step := "ready",
                source_lang := some "en", target_lang := some "es",
                voice_gender := some "FEMALE" })
        "p" "" 1 (some "mediaUrl")).created = [TmpFile.raw]) ∧
    ((Srv0.handleIncoming ({ fetch := some "audio/ogg" } : Env)
        (some { phone_number := "p", language_step := "ready",
                source_lang := some "en", target_lang := some "es",
                voice_gender := some "FEMALE" })
        "p" "" 1 (some "mediaUrl")).deleted = []) ∧
    ((Srv0.handleIncoming ({ fetch := some "audio/ogg" } : Env)
        (some { phone_number := "p", language_step := "ready",
                source_lang := some "en", target_lang := some "es",
                voice_gender := some "FEMALE" })
        "p" "" 1 (some "mediaUrl")).threw = true) := by
  decide

/-- Witness for `tmp_cleanup_after_transcode`: transcode succeeds, both
whisper models then fail — both temp files were created and both are
deleted. -/
theorem tmp_cleanup_after_transcode_witness :
    ((Srv0.handleIncoming ({ fetch := some "audio/ogg", toWavOk := true } : Env)
        (some { phone_number := "p", language_step := "ready",
                source_lang := some "en", target_lang := some "es",
                voice_gender := some "FEMALE" })
        "p" "" 1 (some "mediaUrl")).created = [TmpFile.raw, TmpFile.wav]) ∧
    ((Srv0.handleIncoming ({ fetch := some "audio/ogg", toWavOk := true } : Env)
        (some { phone_number := "p", language_step := "ready",
                source_lang := some "en", target_lang := some "es",
                voice_gender := some "FEMALE" })
        "p" "" 1 (some "mediaUrl")).deleted = [TmpFile.raw, TmpFile.wav]) :=
  ⟨by decide,
   tmp_cleanup_after_transcode
     ({ fetch := some "audio/ogg", toWavOk := true } : Env)
     (some { phone_number := "p", language_step := "ready",
             source_lang := some "en", target_lang := some "es",
             voice_gender := some "FEMALE" })
     "p" "" 1 (some "mediaUrl") (by decide)⟩

/-- Helper: any log row `translationPhase` inserts has its destination
language given by the flip rule. -/
theorem translationPhase_logs (env : Env) (user : UserRow)
    (phone text : String) (num : Nat) (mediaUrl : Option String)
    (isFree : Bool) (src tgt : String) :
    (translationPhase env user phone text num mediaUrl isFree src tgt).logs = [] ∨
    ∃ lg, (translationPhase env user phone text num mediaUrl isFree src tgt).logs = [lg]
      ∧ lg.language_to = (if lg.language_from = tgt then src else tgt) := by
  simp only [translationPhase, pipelineTail]
  repeat' split
  all_goals first
    | (left; rfl)
    | (right; exact ⟨_, rfl, rfl⟩)
    | simp_all

/-- C1: destination-flip rule — for every user with configured languages
`src`/`tgt`, every log row written by a processed message translates to
`src` when the detected language equals `tgt` and to `tgt` otherwise. -/
theorem dest_flip (env : Env) (u : UserRow) (phone text : String)
    (num : Nat) (mediaUrl : Option String) (src tgt : String)
    (hsrc : u.source_lang = some src) (htgt : u.target_lang = some tgt)
    (lg : LogRow) (rest : List LogRow)
    (hlog : (Srv0.handleIncoming env (some u) phone text num mediaUrl).logs
             = lg :: rest) :
    lg.language_to = (if lg.language_from = tgt then src else tgt) := by
  simp only [Srv0.handleIncoming, Option.getD_some] at hlog
  repeat' split at hlog
  all_goals simp_all
  all_goals (
    rcases translationPhase_logs env u phone text num mediaUrl
      (u.plan = "" || u.plan = "FREE") src tgt with h0 | ⟨lg0, h1, h2⟩ <;> simp_all)

/-- Witness for `dest_flip`: with `source_lang = "en"`, `target_lang = "es"`,
a detected-language "es" text is logged with destination "en", and a
detected-language "fr" text with destination "es". -/
theorem dest_flip_witness :
    ((Srv0.handleIncoming
        ({ detect := fun _ => some "es", translate := fun _ _ => some "Hello" } : Env)
        (some { phone_number := "p", language_step := "ready",
                source_lang := some "en", target_lang := some "es",
                voice_gender := some "FEMALE" })
        "p" "Hola" 0 none).logs
      = [{ phone_number := "p", original_text := "Hola", translated_text := "Hello",
           language_from := "es", language_to := "en" }]) ∧
    (({ phone_number := "p", original_text := "Hola", translated_text := "Hello",
        language_from := "es", language_to := "en" } : LogRow).language_to
      = (if ({ phone_number := "p", original_text := "Hola", translated_text := "Hello",
               language_from := "es", language_to := "en" } : LogRow).language_from = "es"
         then "en" else "es")) ∧
    ((Srv0.handleIncoming
        ({ detect := fun _ => some "fr", translate := fun _ _ => some "Hola" } : Env)
        (some { phone_number := "p", language_step := "ready",
                source_lang := some "en", target_lang := some "es",
                voice_gender := some "FEMALE" })
        "p" "Hello" 0 none).logs
      = [{ phone_number := "p", original_text := "Hello", translated_text := "Hola",
           language_from := "fr", language_to := "es" }]) ∧
    (({ phone_number := "p", original_text := "Hello", translated_text := "Hola",
        language_from := "fr", language_to := "es" } : LogRow).language_to
      = (if ({ phone_number := "p", original_text := "Hello", translated_text := "Hola",
               language_from := "fr", language_to := "es" } : LogRow).language_from = "es"
         then "en" else "es")) :=
  ⟨by decide,
   dest_flip
     ({ detect := fun _ => some "es", translate := fun _ _ => some "Hello" } : Env)
     { phone_number := "p", language_step := "ready", source_lang := some "en",
       target_lang := some "es", voice_gender := some "FEMALE" }
     "p" "Hola" 0 none "en" "es" rfl rfl _ [] (by decide),
   by decide,
   dest_flip
     ({ detect := fun _ => some "fr", translate := fun _ _ => some "Hola" } : Env)
     { phone_number := "p", language_step := "ready", source_lang := some "en",
       target_lang := some "es", voice_gender := some "FEMALE" }
     "p" "Hello" 0 none "en" "es" rfl rfl _ [] (by decide)⟩

/-- C10: in the gender step the male patterns are tested before the female
patterns and the female assignment overwrites an earlier male one, so any
input matching a female pattern stores `voice_gender = "FEMALE"` (even when
it also matches a male pattern, e.g. the word "female"); an input matching
neither pattern re-prompts and leaves the row unchanged. -/
theorem gender_female_overrides (env : Env) (u : UserRow) (phone text : String)
    (num : Nat) (mediaUrl : Option String)
    (hph : phone ≠ "")
    (hstep : u.language_step = "gender")
    (hgate : ¬ ((u.plan = "" ∨ u.plan = "FREE") ∧ 5 ≤ u.free_used))
    (hreset : ¬ Srv0.isResetText text) :
    (Srv0.femaleInput text = true →
      (Srv0.handleIncoming env (some u) phone text num mediaUrl).user
        = some { u with voice_gender := some "FEMALE", language_step := "ready" } ∧
      (Srv0.handleIncoming env (some u) phone text num mediaUrl).sent
        = [Body.setupDone (u.ui_lang.getD "en")]) ∧
    (Srv0.maleInput text = false → Srv0.femaleInput text = false →
      (Srv0.handleIncoming env (some u) phone text num mediaUrl).user = some u ∧
      (Srv0.handleIncoming env (some u) phone text num mediaUrl).sent
        = [Body.genderErr (u.ui_lang.getD "en")]) := by
  constructor
  · intro hf
    simp [Srv0.handleIncoming, hph, hreset, hgate, hstep, hf]
  · intro hm hf
    simp [Srv0.handleIncoming, hph, hreset, hgate, hstep, hf, hm]

/-- Witness for `gender_female_overrides`: "female" matches both patterns
and stores FEMALE; "hola" matches neither, re-prompts, and changes nothing. -/
theorem gender_female_overrides_witness :
    Srv0.maleInput "female" = true ∧ Srv0.femaleInput "female" = true ∧
    ((Srv0.handleIncoming ({} : Env)
        (some { phone_number := "p", language_step := "gender",
                ui_lang := some "en", source_lang := some "en",
                target_lang := some "es" })
        "p" "female" 0 none).user
      = some { phone_number := "p", language_step := "ready",
               ui_lang := some "en", source_lang := some "en",
               target_lang := some "es", voice_gender := some "FEMALE" }) ∧
    Srv0.maleInput "hola" = false ∧ Srv0.femaleInput "hola" = false ∧
    ((Srv0.handleIncoming ({} : Env)
        (some { phone_number := "p", language_step := "gender",
                ui_lang := some "en", source_lang := some "en",
                target_lang := some "es" })
        "p" "hola" 0 none).user
      = some { phone_number := "p", language_step := "gender",
               ui_lang := some "en", source_lang := some "en",
               target_lang := some "es" }) ∧
    ((Srv0.handleIncoming ({} : Env)
        (some { phone_number := "p", language_step := "gender",
                ui_lang := some "en", source_lang := some "en",
                target_lang := some "es" })
        "p" "hola" 0 none).sent = [Body.genderErr "en"]) :=
  ⟨by decide, by decide,
   ((gender_female_overrides ({} : Env) _ "p" "female" 0 none (by decide) rfl
      (by decide) (by decide)).1 (by decide)).1,
   by decide, by decide,
   ((gender_female_overrides ({} : Env) _ "p" "hola" 0 none (by decide) rfl
      (by decide) (by decide)).2 (by decide) (by decide)).1,
   ((gender_female_overrides ({} : Env) _ "p" "hola" 0 none (by decide) rfl
      (by decide) (by decide)).2 (by decide) (by decide)).2⟩

/-- C2 (amended): in the part_000 variant a non-reset message from a user
in a wizard state is dispatched to the matching wizard step *provided the
user is not quota-gated* (free plan with `free_used ≥ 5`); when gated, the
pay-wall gate fires before the wizard (see `paywall_gates_wizard_cex`).
Billing quick replies require the same gate, so they cannot intercept
here either. -/
theorem wizard_dispatch_when_not_gated (env : Env) (u : UserRow)
    (phone text : String) (num : Nat) (mediaUrl : Option String)
    (hph : phone ≠ "")
    (hstep : u.language_step = "ui" ∨ u.language_step = "target"
              ∨ u.language_step = "gender")
    (hgate : ¬ ((u.plan = "" ∨ u.plan = "FREE") ∧ 5 ≤ u.free_used))
    (hreset : ¬ Srv0.isResetText text) :
    (Srv0.handleIncoming env (some u) phone text num mediaUrl).route = Route.wizardUi
    ∨ (Srv0.handleIncoming env (some u) phone text num mediaUrl).route
        = Route.wizardTarget
    ∨ (Srv0.handleIncoming env (some u) phone text num mediaUrl).route
        = Route.wizardGender := by
  rcases hstep with h | h | h
  · left
    cases hp : Srv0.pickLang text <;>
      simp [Srv0.handleIncoming, hph, hreset, hgate, h, hp]
  · right; left
    cases hp : Srv0.pickLang text <;>
      simp [Srv0.handleIncoming, hph, hreset, hgate, h, hp] <;>
      split <;> simp
  · right; right
    cases hf : Srv0.femaleInput text <;> cases hm : Srv0.maleInput text <;>
      simp [Srv0.handleIncoming, hph, hreset, hgate, h, hf, hm]

/-- Witness for `wizard_dispatch_when_not_gated`: a free user mid-wizard
with `free_used = 4 < 5` sending "hello" is handled by the wizard. -/
theorem wizard_dispatch_when_not_gated_witness :
    (Srv0.handleIncoming ({} : Env)
      (some { phone_number := "p", language_step := "ui", plan := "FREE",
              free_used := 4 })
      "p" "hello" 0 none).route = Route.wizardUi
    ∨ (Srv0.handleIncoming ({} : Env)
      (some { phone_number := "p", language_step := "ui", plan := "FREE",
              free_used := 4 })
      "p" "hello" 0 none).route = Route.wizardTarget
    ∨ (Srv0.handleIncoming ({} : Env)
      (some { phone_number := "p", language_step := "ui", plan := "FREE",
              free_used := 4 })
      "p" "hello" 0 none).route = Route.wizardGender :=
  wizard_dispatch_when_not_gated ({} : Env)
    { phone_number := "p", language_step := "ui", plan := "FREE", free_used := 4 }
    "p" "hello" 0 none (by decide) (by decide) (by decide) (by decide)

/-- C2 (counterexample): the quota-gated wizard state is reachable
(complete the wizard, consume the 5 free translations, then reset), and in
it a non-reset, non-billing message ("hello") is answered with the
pay-wall message — the row is untouched and no wizard step runs, refuting
"regardless of the user's free_used count". -/
theorem paywall_gates_wizard_cex :
    Srv0.Reach { phone_number := "p", language_step := "ui", plan := "FREE",
                 free_used := 5 } ∧
    ((Srv0.handleIncoming ({} : Env)
        (some { phone_number := "p", language_step := "ui", plan := "FREE",
                free_used := 5 })
        "p" "hello" 0 none).sent = [Body.paywall "en"]) ∧
    ((Srv0.handleIncoming ({} : Env)
        (some { phone_number := "p", language_step := "ui", plan := "FREE",
                free_used := 5 })
        "p" "hello" 0 none).route = Route.paywall) ∧
    ((Srv0.handleIncoming ({} : Env)
        (some { phone_number := "p", language_step := "ui", plan := "FREE",
                free_used := 5 })
        "p" "hello" 0 none).user
      = some { phone_number := "p", language_step := "ui", plan := "FREE",
               free_used := 5 }) := by
  refine ⟨?_, by decide, by decide, by decide⟩
  have h0 : Srv0.Reach (Srv0.initUser "p") := Srv0.Reach.init "p"
  have h1 : Srv0.Reach
      { phone_number := "p", language_step := "target", ui_lang := some "en",
        source_lang := some "en", plan := "FREE", free_used := 0 } :=
    Srv0.Reach.msg _ _ ({} : Env) "1" 0 none h0 (by decide)
  have h2 : Srv0.Reach
      { phone_number := "p", language_step := "gender", ui_lang := some "en",
        source_lang := some "en", target_lang := some "es", plan := "FREE",
        free_used := 0 } :=
    Srv0.Reach.msg _ _ ({} : Env) "2" 0 none h1 (by decide)
  have h3 : Srv0.Reach
      { phone_number := "p", language_step := "ready", ui_lang := some "en",
        source_lang := some "en", target_lang := some "es",
        voice_gender := some "MALE", plan := "FREE", free_used := 0 } :=
    Srv0.Reach.msg _ _ ({} : Env) "1" 0 none h2 (by decide)
  have h4 : Srv0.Reach
      { phone_number := "p", language_step := "ready", ui_lang := some "en",
        source_lang := some "en", target_lang := some "es",
        voice_gender := some "MALE", plan := "FREE", free_used := 1 } :=
    Srv0.Reach.msg _ _
      ({ detect := fun _ => some "fr", translate := fun _ _ => some "x" } : Env)
      "hi" 0 none h3 (by decide)
  have h5 : Srv0.Reach
      { phone_number := "p", language_step := "ready", ui_lang := some "en",
        source_lang := some "en", target_lang := some "es",
        voice_gender := some "MALE", plan := "FREE", free_used := 2 } :=
    Srv0.Reach.msg _ _
      ({ detect := fun _ => some "fr", translate := fun _ _ => some "x" } : Env)
      "hi" 0 none h4 (by decide)
  have h6 : Srv0.Reach
      { phone_number := "p", language_step := "ready", ui_lang := some "en",
        source_lang := some "en", target_lang := some "es",
        voice_gender := some "MALE", plan := "FREE", free_used := 3 } :=
    Srv0.Reach.msg _ _
      ({ detect := fun _ => some "fr", translate := fun _ _ => some "x" } : Env)
      "hi" 0 none h5 (by decide)
  have h7 : Srv0.Reach
      { phone_number := "p", language_step := "ready", ui_lang := some "en",
        source_lang := some "en", target_lang := some "es",
        voice_gender := some "MALE", plan := "FREE", free_used := 4 } :=
    Srv0.Reach.msg _ _
      ({ detect := fun _ => some "fr", translate := fun _ _ => some "x" } : Env)
      "hi" 0 none h6 (by decide)
  have h8 : Srv0.Reach
      { phone_number := "p", language_step := "ready", ui_lang := some "en",
        source_lang := some "en", target_lang := some "es",
        voice_gender := some "MALE", plan := "FREE", free_used := 5 } :=
    Srv0.Reach.msg _ _
      ({ detect := fun _ => some "fr", translate := fun _ _ => some "x" } : Env)
      "hi" 0 none h7 (by decide)
  exact Srv0.Reach.msg _ _ ({} : Env) "reset" 0 none h8 (by decide)

/-- C5 (amended): in the part_000 variant, "reset" (case-insensitive, also
"change language") from any state clears `source_lang`, `target_lang`,
`voice_gender`, `ui_lang`, returns the step to `"ui"`, sends the neutral
welcome menu, and doing it a second time yields the same row and the same
response.  In the part_001 variant this only holds outside the wizard
states, because the wizard consumes the message first (see
`reset_not_total_cex`). -/
theorem reset_total_idempotent (env env2 : Env) (u : UserRow)
    (phone text text2 : String) (num num2 : Nat)
    (mediaUrl mediaUrl2 : Option String)
    (hph : phone ≠ "")
    (h1 : Srv0.isResetText text) (h2 : Srv0.isResetText text2) :
    ((Srv0.handleIncoming env (some u) phone text num mediaUrl).user
      = some { u with
               language_step := "ui", source_lang := none, target_lang := none,
               voice_gender := none, ui_lang := none }) ∧
    ((Srv0.handleIncoming env (some u) phone text num mediaUrl).sent
      = [Body.welcome]) ∧
    ((Srv0.handleIncoming env2
        (some { u with
                language_step := "ui", source_lang := none, target_lang := none,
                voice_gender := none, ui_lang := none })
        phone text2 num2 mediaUrl2).user
      = some { u with
               language_step := "ui", source_lang := none, target_lang := none,
               voice_gender := none, ui_lang := none }) ∧
    ((Srv0.handleIncoming env2
        (some { u with
                language_step := "ui", source_lang := none, target_lang := none,
                voice_gender := none, ui_lang := none })
        phone text2 num2 mediaUrl2).sent = [Body.welcome]) := by
  have hb1 : ¬(text = "1" ∨ text = "2" ∨ text = "3") := by
    rintro (rfl | rfl | rfl) <;> revert h1 <;> decide
  have hb2 : ¬(text2 = "1" ∨ text2 = "2" ∨ text2 = "3") := by
    rintro (rfl | rfl | rfl) <;> revert h2 <;> decide
  refine ⟨?_, ?_, ?_, ?_⟩ <;>
    simp [Srv0.handleIncoming, hph, h1, h2, hb1, hb2]

/-- Witness for `reset_total_idempotent`: a mid-wizard user sending
"Reset" then "CHANGE LANGUAGE". -/
theorem reset_total_idempotent_witness :
    Srv0.isResetText "Reset" ∧ Srv0.isResetText "CHANGE LANGUAGE" ∧
    ((Srv0.handleIncoming ({} : Env)
        (some { phone_number := "p", language_step := "gender",
                ui_lang := some "en", source_lang := some "en",
                target_lang := some "es", plan := "FREE", free_used := 3 })
        "p" "Reset" 0 none).user
      = some { phone_number := "p", language_step := "ui", plan := "FREE",
               free_used := 3 }) ∧
    ((Srv0.handleIncoming ({} : Env)
        (some { phone_number := "p", language_step := "gender",
                ui_lang := some "en", source_lang := some "en",
                target_lang := some "es", plan := "FREE", free_used := 3 })
        "p" "Reset" 0 none).sent = [Body.welcome]) ∧
    ((Srv0.handleIncoming ({} : Env)
        (some { phone_number := "p", language_step := "ui", plan := "FREE",
                free_used := 3 })
        "p" "CHANGE LANGUAGE" 0 none).user
      = some { phone_number := "p", language_step := "ui", plan := "FREE",
               free_used := 3 }) ∧
    ((Srv0.handleIncoming ({} : Env)
        (some { phone_number := "p", language_step := "ui", plan := "FREE",
                free_used := 3 })
        "p" "CHANGE LANGUAGE" 0 none).sent = [Body.welcome]) := by
  have h := reset_total_idempotent ({} : Env) ({} : Env)
    { phone_number := "p", language_step := "gender", ui_lang := some "en",
      source_lang := some "en", target_lang := some "es", plan := "FREE",
      free_used := 3 }
    "p" "Reset" "CHANGE LANGUAGE" 0 0 none none
    (by decide) (by decide) (by decide)
  exact ⟨by decide, by decide, h.1, h.2.1, h.2.2.1, h.2.2.2⟩

/-- C5 (counterexample): in the part_001 variant the state
`language_step = "receive"` is reachable, and from it the message "reset"
is consumed by the wizard: the row is unchanged (`source_lang` is *not*
cleared, the step does not return to the initial one) and the reply is the
receive-language re-prompt, not the welcome menu. -/
theorem reset_not_total_cex :
    Srv1.Reach { phone_number := "p", language_step := "receive",
                 ui_lang := some "en", source_lang := some "en",
                 plan := "FREE", free_used := 0 } ∧
    ((Srv1.handleIncoming ({} : Env)
        (some { phone_number := "p", language_step := "receive",
                ui_lang := some "en", source_lang := some "en",
                plan := "FREE", free_used := 0 })
        "p" "reset" 0 none).user
      = some { phone_number := "p", language_step := "receive",
               ui_lang := some "en", source_lang := some "en",
               plan := "FREE", free_used := 0 }) ∧
    ((Srv1.handleIncoming ({} : Env)
        (some { phone_number := "p", language_step := "receive",
                ui_lang := some "en", source_lang := some "en",
                plan := "FREE", free_used := 0 })
        "p" "reset" 0 none).sent = [Body.receiveMenu "en"]) ∧
    ((Srv1.handleIncoming ({} : Env)
        (some { phone_number := "p", language_step := "receive",
                ui_lang := some "en", source_lang := some "en",
                plan := "FREE", free_used := 0 })
        "p" "reset" 0 none).sent ≠ [Body.welcome]) ∧
    ((Srv1.handleIncoming ({} : Env)
        (some { phone_number := "p", language_step := "receive",
                ui_lang := some "en", source_lang := some "en",
                plan := "FREE", free_used := 0 })
        "p" "reset" 0 none).route = Route.wizardTarget) := by
  refine ⟨?_, by decide, by decide, by decide, by decide⟩
  exact Srv1.Reach.msg _ _ ({} : Env) "1" 0 none (Srv1.Reach.init "p") (by decide)

/-- Helper: when `translationPhase` wrote a log row (the translation
succeeded), the resulting row is the input row with `free_used` bumped
exactly when the user is on the free plan. -/
theorem translationPhase_success_user (env : Env) (user : UserRow)
    (phone text : String) (num : Nat) (mediaUrl : Option String)
    (isFree : Bool) (src tgt : String) :
    (translationPhase env user phone text num mediaUrl isFree src tgt).logs ≠ [] →
    (translationPhase env user phone text num mediaUrl isFree src tgt).user
      = some (if isFree then { user with free_used := user.free_used + 1 }
              else user) := by
  simp only [translationPhase, pipelineTail]
  repeat' split
  all_goals simp

/-- Helper: the same fact lifted to the Srv0 handler: a run that wrote a
log row leaves the row unchanged except for the conditional `free_used`
increment. -/
theorem handleIncoming_success_user (env : Env) (u : UserRow)
    (phone text : String) (num : Nat) (mediaUrl : Option String) :
    (Srv0.handleIncoming env (some u) phone text num mediaUrl).logs ≠ [] →
    (Srv0.handleIncoming env (some u) phone text num mediaUrl).user
      = some (if u.plan = "" ∨ u.plan = "FREE"
              then { u with free_used := u.free_used + 1 } else u) := by
  simp only [Srv0.handleIncoming, Option.getD_some]
  repeat' split
  all_goals try simp
  all_goals intro hlog
  all_goals rw [translationPhase_success_user _ _ _ _ _ _ _ _ _ hlog]
  all_goals simp_all

/-- C3: quota boundary — a FREE user at `free_used = 4` who gets one more
successful translation ends at `free_used = 5`, and the next message that
is a bare digit 1/2/3 is intercepted as a billing-tier selection: the
handler takes the billing branch and sends the checkout link. -/
theorem quota_boundary (env env2 : Env) (u u' : UserRow)
    (phone text d cid link : String) (num : Nat) (mediaUrl : Option String)
    (hph : phone ≠ "")
    (hplan : u.plan = "FREE") (hfree : u.free_used = 4)
    (hcust : u.stripe_cust_id = some cid)
    (hsess : env2.session = some link)
    (hu : (Srv0.handleIncoming env (some u) phone text num mediaUrl).user = some u')
    (hlog : (Srv0.handleIncoming env (some u) phone text num mediaUrl).logs ≠ [])
    (hd : d = "1" ∨ d = "2" ∨ d = "3") :
    u'.free_used = 5 ∧
    (Srv0.handleIncoming env2 (some u') phone d 0 none).route = Route.billing ∧
    (Srv0.handleIncoming env2 (some u') phone d 0 none).sent
      = [Body.payLink link] := by
  have hshape := handleIncoming_success_user env u phone text num mediaUrl hlog
  rw [hu, if_pos (Or.inr hplan)] at hshape
  have hu' := Option.some.inj hshape
  subst hu'
  rcases hd with rfl | rfl | rfl <;>
    refine ⟨by simp [hfree], ?_, ?_⟩ <;>
      simp [Srv0.handleIncoming, checkoutUrl, hph, hplan, hfree, hcust, hsess]

/-- Witness for `quota_boundary`: a concrete READY free user at 4 used
translations, one successful text translation, then the digit "1". -/
theorem quota_boundary_witness :
    ((Srv0.handleIncoming
        ({ detect := fun _ => some "fr", translate := fun _ _ => some "x" } : Env)
        (some { phone_number := "p", language_step := "ready",
                ui_lang := some "en", source_lang := some "en",
                target_lang := some "es", voice_gender := some "MALE",
                plan := "FREE", free_used := 4, stripe_cust_id := some "cus" })
        "p" "hola" 0 none).user
      = some { phone_number := "p", language_step := "ready",
               ui_lang := some "en", source_lang := some "en",
               target_lang := some "es", voice_gender := some "MALE",
               plan := "FREE", free_used := 5, stripe_cust_id := some "cus" }) ∧
    ({ phone_number := "p", language_step := "ready", ui_lang := some "en",
       source_lang := some "en", target_lang := some "es",
       voice_gender := some "MALE", plan := "FREE", free_used := 5,
       stripe_cust_id := some "cus" } : UserRow).free_used = 5 ∧
    ((Srv0.handleIncoming ({ session := some "LINK" } : Env)
        (some { phone_number := "p", language_step := "ready",
                ui_lang := some "en", source_lang := some "en",
                target_lang := some "es", voice_gender := some "MALE",
                plan := "FREE", free_used := 5, stripe_cust_id := some "cus" })
        "p" "1" 0 none).route = Route.billing) ∧
    ((Srv0.handleIncoming ({ session := some "LINK" } : Env)
        (some { phone_number := "p", language_step := "ready",
                ui_lang := some "en", source_lang := some "en",
                target_lang := some "es", voice_gender := some "MALE",
                plan := "FREE", free_used := 5, stripe_cust_id := some "cus" })
        "p" "1" 0 none).sent = [Body.payLink "LINK"]) := by
  have h := quota_boundary
    ({ detect := fun _ => some "fr", translate := fun _ _ => some "x" } : Env)
    ({ session := some "LINK" } : Env)
    { phone_number := "p", language_step := "ready", ui_lang := some "en",
      source_lang := some "en", target_lang := some "es",
      voice_gender := some "MALE", plan := "FREE", free_used := 4,
      stripe_cust_id := some "cus" }
    { phone_number := "p", language_step := "ready", ui_lang := some "en",
      source_lang := some "en", target_lang := some "es",
      voice_gender := some "MALE", plan := "FREE", free_used := 5,
      stripe_cust_id := some "cus" }
    "p" "hola" "1" "cus" "LINK" 0 none
    (by decide) rfl rfl rfl rfl (by decide) (by decide) (Or.inl rfl)
  exact ⟨by decide, h.1, h.2.1, h.2.2⟩

/-- Helper: `checkoutUrl` never touches `free_used`. -/
theorem checkoutUrl_snd_free_used (env : Env) (u : UserRow) :
    ((checkoutUrl env u).2).free_used = u.free_used := by
  unfold checkoutUrl
  repeat' split
  all_goals simp

/-- Helper: any row a `translationPhase` run stores has `free_used` either
unchanged or incremented by one. -/
theorem translationPhase_any_user (env : Env) (user : UserRow)
    (phone text : String) (num : Nat) (mediaUrl : Option String)
    (isFree : Bool) (src tgt : String) :
    ∀ u', (translationPhase env user phone text num mediaUrl isFree src tgt).user
            = some u' →
      u'.free_used = user.free_used ∨ u'.free_used = user.free_used + 1 := by
  intro u' h
  simp only [translationPhase, pipelineTail] at h
  repeat' split at h
  all_goals try simp_all
  all_goals (cases h; simp)

/-- Helper: any row a Srv0 `handleIncoming` run stores for an existing
user has `free_used` either unchanged or incremented by one. -/
theorem handleIncoming_free_used (env : Env) (u : UserRow)
    (phone text : String) (num : Nat) (mediaUrl : Option String) :
    ∀ u', (Srv0.handleIncoming env (some u) phone text num mediaUrl).user
            = some u' →
      u'.free_used = u.free_used ∨ u'.free_used = u.free_used + 1 := by
  intro u' h
  simp only [Srv0.handleIncoming, Option.getD_some] at h
  repeat' split at h
  all_goals first
    | exact translationPhase_any_user _ _ _ _ _ _ _ _ _ u' h
    | (simp_all; done)
    | (simp at h; cases h; simp; done)
    | (rename_i heq
       have hc := checkoutUrl_snd_free_used env u
       rw [heq] at hc
       simp_all)

/-- C7: `free_used` is reset to 0 exactly on paid-plan activation — the
verified "checkout completed" event rewrites each matched row to the
purchased plan with `free_used = 0`; "subscription deleted" downgrades the
matched row to FREE without touching `free_used`; and every inbound-message
handling either leaves `free_used` unchanged or increments it by one. -/
theorem free_used_reset_only_on_activation :
    (∀ sigOk event users,
      (Srv0.stripeWebhook sigOk event users).2
        = if sigOk then users.map (Srv0.stripeRowUpdate event) else users) ∧
    (∀ s u, u.stripe_cust_id = some s.customer →
      Srv0.stripeRowUpdate (Srv0.StripeEvent.checkoutCompleted s) u
        = { u with
            plan := Srv0.planOfTier s.tier, free_used := 0,
            stripe_sub_id := s.subscription }) ∧
    (∀ subId u,
      (Srv0.stripeRowUpdate (Srv0.StripeEvent.subscriptionDeleted subId) u).free_used
        = u.free_used ∧
      (u.stripe_sub_id = some subId →
        (Srv0.stripeRowUpdate (Srv0.StripeEvent.subscriptionDeleted subId) u).plan
          = "FREE")) ∧
    (∀ env u phone text num mediaUrl u',
      (Srv0.handleIncoming env (some u) phone text num mediaUrl).user = some u' →
      u'.free_used = u.free_used ∨ u'.free_used = u.free_used + 1) := by
  refine ⟨?_, ?_, ?_, ?_⟩
  · intro sigOk event users
    cases sigOk
    · rfl
    · cases event with
      | checkoutCompleted s =>
        simp only [Srv0.stripeWebhook, Srv0.dbUpdateWhere, Srv0.jsLenEqZero,
          if_true]
        refine List.map_congr_left fun a _ => ?_
        unfold Srv0.stripeRowUpdate
        simp
      | subscriptionDeleted subId =>
        simp only [Srv0.stripeWebhook, Srv0.dbUpdateWhere, Srv0.jsLenEqZero,
          if_true]
        refine List.map_congr_left fun a _ => ?_
        unfold Srv0.stripeRowUpdate
        simp
      | other =>
        simp only [Srv0.stripeWebhook, if_true]
        induction users with
        | nil => rfl
        | cons a l ih =>
          have ha : Srv0.stripeRowUpdate Srv0.StripeEvent.other a = a := rfl
          simp only [List.map_cons, ha]
          exact congrArg (a :: ·) ih
  · intro s u h
    unfold Srv0.stripeRowUpdate
    simp [h]
  · intro subId u
    refine ⟨?_, fun h => ?_⟩
    · unfold Srv0.stripeRowUpdate
      repeat' split
      all_goals simp_all
    · unfold Srv0.stripeRowUpdate
      simp [h]
  · intro env u phone text num mediaUrl u' h
    exact handleIncoming_free_used env u phone text num mediaUrl u' h

/-- Witness for `free_used_reset_only_on_activation` at concrete rows:
a monthly checkout resets `free_used` 3 → 0; a subscription deletion keeps
`free_used = 3` while downgrading to FREE; a reset message leaves
`free_used` at 2 (or bumps it — the disjunction holds). -/
theorem free_used_reset_only_on_activation_witness :
    (Srv0.stripeRowUpdate
      (Srv0.StripeEvent.checkoutCompleted
        { tier := "monthly", customer := "cus", subscription := some "sub" })
      { phone_number := "p", language_step := "ready", plan := "FREE",
        free_used := 3, stripe_cust_id := some "cus" }
      = { phone_number := "p", language_step := "ready", plan := "MONTHLY",
          free_used := 0, stripe_cust_id := some "cus",
          stripe_sub_id := some "sub" }) ∧
    ((Srv0.stripeRowUpdate (Srv0.StripeEvent.subscriptionDeleted "sub")
      { phone_number := "p", language_step := "ready", plan := "MONTHLY",
        free_used := 3, stripe_sub_id := some "sub" }).free_used = 3) ∧
    ((Srv0.stripeRowUpdate (Srv0.StripeEvent.subscriptionDeleted "sub")
      { phone_number := "p", language_step := "ready", plan := "MONTHLY",
        free_used := 3, stripe_sub_id := some "sub" }).plan = "FREE") ∧
    (({ phone_number := "p", language_step := "ui", plan := "FREE",
        free_used := 2 } : UserRow).free_used
        = ({ phone_number := "p", language_step := "gender", plan := "FREE",
             free_used := 2 } : UserRow).free_used
      ∨ ({ phone_number := "p", language_step := "ui", plan := "FREE",
           free_used := 2 } : UserRow).free_used
        = ({ phone_number := "p", language_step := "gender", plan := "FREE",
             free_used := 2 } : UserRow).free_used + 1) := by
  refine ⟨?_, ?_, ?_, ?_⟩
  · have h := free_used_reset_only_on_activation.2.1
      { tier := "monthly", customer := "cus", subscription := some "sub" }
      { phone_number := "p", language_step := "ready", plan := "FREE",
        free_used := 3, stripe_cust_id := some "cus" } rfl
    rw [h]; decide
  · exact (free_used_reset_only_on_activation.2.2.1 "sub"
      { phone_number := "p", language_step := "ready", plan := "MONTHLY",
        free_used := 3, stripe_sub_id := some "sub" }).1
  · exact (free_used_reset_only_on_activation.2.2.1 "sub"
      { phone_number := "p", language_step := "ready", plan := "MONTHLY",
        free_used := 3, stripe_sub_id := some "sub" }).2 rfl
  · exact free_used_reset_only_on_activation.2.2.2 ({} : Env)
      { phone_number := "p", language_step := "gender", plan := "FREE",
        free_used := 2 }
      "p" "reset" 0 none
      { phone_number := "p", language_step := "ui", plan := "FREE",
        free_used := 2 }
      (by decide)

/-- Helper: when `translationPhase` wrote exactly one log row, its outbound
messages are the translated text alone (pure text), or transcript +
translation (+ audio link if synthesis and upload both succeeded). -/
theorem translationPhase_sent_eq (env : Env) (user : UserRow)
    (phone text : String) (num : Nat) (mediaUrl : Option String)
    (isFree : Bool) (src tgt : String) (lg : LogRow)
    (h : (translationPhase env user phone text num mediaUrl isFree src tgt).logs
          = [lg]) :
    (translationPhase env user phone text num mediaUrl isFree src tgt).sent
      = (if num = 0 then [Body.translated lg.translated_text]
         else if env.ttsOk then
           match env.upload with
           | some url => [Body.heard lg.original_text,
                          Body.translated lg.translated_text, Body.audio url]
           | none => [Body.heard lg.original_text,
                      Body.translated lg.translated_text]
         else [Body.heard lg.original_text,
               Body.translated lg.translated_text]) := by
  revert h
  simp only [translationPhase, pipelineTail]
  repeat' split
  all_goals intro h
  all_goals try (simp_all; done)
  all_goals (injection h with h1 h2; subst h1; simp)

/-- Helper: the same message-shape fact lifted to the Srv0 handler. -/
theorem handleIncoming_sent_of_logs (env : Env) (userOpt : Option UserRow)
    (phone text : String) (num : Nat) (mediaUrl : Option String) (lg : LogRow)
    (hlog : (Srv0.handleIncoming env userOpt phone text num mediaUrl).logs
          = [lg]) :
    (Srv0.handleIncoming env userOpt phone text num mediaUrl).sent
      = (if num = 0 then [Body.translated lg.translated_text]
         else if env.ttsOk then
           match env.upload with
           | some url => [Body.heard lg.original_text,
                          Body.translated lg.translated_text, Body.audio url]
           | none => [Body.heard lg.original_text,
                      Body.translated lg.translated_text]
         else [Body.heard lg.original_text,
               Body.translated lg.translated_text]) := by
  revert hlog
  simp only [Srv0.handleIncoming]
  repeat' split
  all_goals intro hlog
  all_goals first
    | (simp_all; done)
    | (rw [translationPhase_sent_eq _ _ _ _ _ _ _ _ _ _ hlog]
       simp_all)

/-- C8: reply counts — whenever a run logged exactly one translation, a
voice-note inbound (`num ≠ 0`) produced exactly the 3 ordered messages
transcript / translation / audio link when synthesis and upload succeeded,
exactly the first 2 when synthesis failed after all fallback tiers, and a
pure-text inbound (`num = 0`) produced exactly 1 message, the translated
text. -/
theorem reply_counts (env : Env) (u : UserRow)
    (phone text : String) (num : Nat) (mediaUrl : Option String) (lg : LogRow)
    (hready : u.language_step = "ready")
    (hlog : (Srv0.handleIncoming env (some u) phone text num mediaUrl).logs
          = [lg]) :
    (num = 0 →
      (Srv0.handleIncoming env (some u) phone text num mediaUrl).sent
        = [Body.translated lg.translated_text]) ∧
    (num ≠ 0 → env.ttsOk = true → ∀ url, env.upload = some url →
      (Srv0.handleIncoming env (some u) phone text num mediaUrl).sent
        = [Body.heard lg.original_text, Body.translated lg.translated_text,
           Body.audio url]) ∧
    (num ≠ 0 → env.ttsOk = false →
      (Srv0.handleIncoming env (some u) phone text num mediaUrl).sent
        = [Body.heard lg.original_text,
           Body.translated lg.translated_text]) := by
  have h := handleIncoming_sent_of_logs env (some u) phone text num mediaUrl lg hlog
  refine ⟨fun h0 => ?_, fun h0 htts url hurl => ?_, fun h0 htts => ?_⟩ <;>
    simp_all

/-- Witness for `reply_counts`: a READY user's voice note with transcript
"hi": 3 messages when TTS and upload succeed, 2 when TTS fails; the same
user's pure text message: 1 message. -/
theorem reply_counts_witness :
    ((Srv0.handleIncoming
        ({ fetch := some "audio/ogg", toWavOk := true, whisper := some ("hi", "en"),
           translate := fun _ _ => some "hola", ttsOk := true,
           upload := some "URL" } : Env)
        (some { phone_number := "p", language_step := "ready",
                ui_lang := some "en", source_lang := some "en",
                target_lang := some "es", voice_gender := some "MALE",
                plan := "FREE", free_used := 0 })
        "p" "" 1 (some "m")).sent
      = [Body.heard "hi", Body.translated "hola", Body.audio "URL"]) ∧
    ((Srv0.handleIncoming
        ({ fetch := some "audio/ogg", toWavOk := true, whisper := some ("hi", "en"),
           translate := fun _ _ => some "hola", ttsOk := false } : Env)
        (some { phone_number := "p", language_step := "ready",
                ui_lang := some "en", source_lang := some "en",
                target_lang := some "es", voice_gender := some "MALE",
                plan := "FREE", free_used := 0 })
        "p" "" 1 (some "m")).sent
      = [Body.heard "hi", Body.translated "hola"]) ∧
    ((Srv0.handleIncoming
        ({ detect := fun _ => some "en",
           translate := fun _ _ => some "hola" } : Env)
        (some { phone_number := "p", language_step := "ready",
                ui_lang := some "en", source_lang := some "en",
                target_lang := some "es", voice_gender := some "MALE",
                plan := "FREE", free_used := 0 })
        "p" "hi" 0 none).sent = [Body.translated "hola"]) := by
  refine ⟨?_, ?_, ?_⟩
  · exact ((reply_counts
      ({ fetch := some "audio/ogg", toWavOk := true, whisper := some ("hi", "en"),
         translate := fun _ _ => some "hola", ttsOk := true,
         upload := some "URL" } : Env)
      { phone_number := "p", language_step := "ready", ui_lang := some "en",
        source_lang := some "en", target_lang := some "es",
        voice_gender := some "MALE", plan := "FREE", free_used := 0 }
      "p" "" 1 (some "m")
      { phone_number := "p", original_text := "hi", translated_text := "hola",
        language_from := "en", language_to := "es" }
      rfl (by decide)).2.1 (by decide) rfl "URL" rfl)
  · exact ((reply_counts
      ({ fetch := some "audio/ogg", toWavOk := true, whisper := some ("hi", "en"),
         translate := fun _ _ => some "hola", ttsOk := false } : Env)
      { phone_number := "p", language_step := "ready", ui_lang := some "en",
        source_lang := some "en", target_lang := some "es",
        voice_gender := some "MALE", plan := "FREE", free_used := 0 }
      "p" "" 1 (some "m")
      { phone_number := "p", original_text := "hi", translated_text := "hola",
        language_from := "en", language_to := "es" }
      rfl (by decide)).2.2 (by decide) rfl)
  · exact ((reply_counts
      ({ detect := fun _ => some "en",
         translate := fun _ _ => some "hola" } : Env)
      { phone_number := "p", language_step := "ready", ui_lang := some "en",
        source_lang := some "en", target_lang := some "es",
        voice_gender := some "MALE", plan := "FREE", free_used := 0 }
      "p" "hi" 0 none
      { phone_number := "p", original_text := "hi", translated_text := "hola",
        language_from := "en", language_to := "es" }
      rfl (by decide)).1 rfl)

/-- Helper: `checkoutUrl` never touches the step or language columns. -/
theorem checkoutUrl_langs (env : Env) (u : UserRow) :
    ((checkoutUrl env u).2).language_step = u.language_step ∧
    ((checkoutUrl env u).2).source_lang = u.source_lang ∧
    ((checkoutUrl env u).2).target_lang = u.target_lang := by
  unfold checkoutUrl
  repeat' split
  all_goals simp

/-- Helper: `translationPhase` never touches the step or language columns. -/
theorem translationPhase_langs (env : Env) (user : UserRow)
    (phone text : String) (num : Nat) (mediaUrl : Option String)
    (isFree : Bool) (src tgt : String) :
    ∀ u', (translationPhase env user phone text num mediaUrl isFree src tgt).user
            = some u' →
      u'.language_step = user.language_step ∧
      u'.source_lang = user.source_lang ∧
      u'.target_lang = user.target_lang := by
  intro u' h
  simp only [translationPhase, pipelineTail] at h
  repeat' split at h
  all_goals try (simp_all; done)
  all_goals (cases h; simp)

/-- Helper: the billing webhook's row effect never touches the step or
language columns. -/
theorem stripeRowUpdate_langs (event : Srv0.StripeEvent) (u : UserRow) :
    (Srv0.stripeRowUpdate event u).language_step = u.language_step ∧
    (Srv0.stripeRowUpdate event u).source_lang = u.source_lang ∧
    (Srv0.stripeRowUpdate event u).target_lang = u.target_lang := by
  unfold Srv0.stripeRowUpdate
  repeat' split
  all_goals simp_all

/-- Helper: one inbound message preserves `LangInv`. -/
theorem langInv_msg (env : Env) (u : UserRow) (phone text : String)
    (num : Nat) (mediaUrl : Option String) (hI : LangInv u) :
    ∀ u', (Srv0.handleIncoming env (some u) phone text num mediaUrl).user
            = some u' →
      LangInv u' := by
  obtain ⟨hI1, hI2⟩ := hI
  intro u' h
  simp only [Srv0.handleIncoming, Option.getD_some] at h
  unfold LangInv
  repeat' split at h
  all_goals try simp at h
  all_goals first
    | (subst h
       refine ⟨fun hstep => ?_, fun s t hs ht hst => ?_⟩ <;> simp_all
       done)
    | (subst h
       rename_i heq
       have hc := checkoutUrl_langs env u
       rw [heq] at hc
       simp only [] at hc
       obtain ⟨hc1, hc2, hc3⟩ := hc
       refine ⟨fun hstep => ?_, fun s t hs ht => ?_⟩
       · rw [hc3]; exact hI1 (by rw [← hc1]; exact hstep)
       · exact hI2 s t (by rw [← hc2]; exact hs) (by rw [← hc3]; exact ht))
    | (obtain ⟨hp1, hp2, hp3⟩ :=
         translationPhase_langs _ _ _ _ _ _ _ _ _ u' h
       refine ⟨fun hstep => ?_, fun s t hs ht => ?_⟩
       · rw [hp3]; exact hI1 (by rw [← hp1]; exact hstep)
       · exact hI2 s t (by rw [← hp2]; exact hs) (by rw [← hp3]; exact ht))

/-- Helper: every reachable Srv0 row satisfies `LangInv`. -/
theorem langInv_reach (u : UserRow) (h : Srv0.Reach u) : LangInv u := by
  induction h with
  | init phone =>
    exact ⟨fun _ => rfl, fun s t hs ht => by simp [Srv0.initUser] at hs⟩
  | msg v v' env text num mediaUrl hu hstep ih =>
    exact langInv_msg env v v.phone_number text num mediaUrl ih v' hstep
  | pay v event hu ih =>
    obtain ⟨hc1, hc2, hc3⟩ := stripeRowUpdate_langs event v
    refine ⟨fun hstep => ?_, fun s t hs ht => ?_⟩
    · rw [hc3]; exact ih.1 (by rw [← hc1]; exact hstep)
    · exact ih.2 s t (by rw [← hc2]; exact hs) (by rw [← hc3]; exact ht)

/-- C4: for every reachable Srv0 user row with both languages set, they
differ; and the CHOOSE_TARGET step stores `target_lang` only when the
selection differs from `source_lang` — an equal selection replies with
the must-differ error and changes nothing. -/
theorem langs_differ_invariant :
    (∀ u, Srv0.Reach u → ∀ s t, u.source_lang = some s →
        u.target_lang = some t → s ≠ t) ∧
    (∀ env u phone text c, phone ≠ "" →
      ¬((u.plan = "" ∨ u.plan = "FREE") ∧ 5 ≤ u.free_used) →
      ¬Srv0.isResetText text → u.language_step = "target" →
      Srv0.pickLang text = some c → u.source_lang = some c.code →
      ∀ num mediaUrl,
        (Srv0.handleIncoming env (some u) phone text num mediaUrl).user
          = some u ∧
        (Srv0.handleIncoming env (some u) phone text num mediaUrl).sent
          = [Body.targetDiff (u.ui_lang.getD "en")]) := by
  constructor
  · intro u hr s t hs ht
    exact (langInv_reach u hr).2 s t hs ht
  · intro env u phone text c hph hgate hreset hstep hpick hsrc num mediaUrl
    constructor <;>
      simp [Srv0.handleIncoming, hph, hgate, hreset, hstep, hpick, hsrc]

/-- Witness for `langs_differ_invariant`: the reachable row after choosing
English then Spanish has distinct languages, and in the CHOOSE_TARGET
state a selection equal to the source language replies with the must-differ
error and leaves the row unchanged. -/
theorem langs_differ_invariant_witness :
    ("en" : String) ≠ "es" ∧
    ((Srv0.handleIncoming ({} : Env)
        (some { phone_number := "p", language_step := "target",
                ui_lang := some "en", source_lang := some "en",
                plan := "FREE", free_used := 0 })
        "p" "english" 0 none).user
      = some { phone_number := "p", language_step := "target",
               ui_lang := some "en", source_lang := some "en",
               plan := "FREE", free_used := 0 }) ∧
    ((Srv0.handleIncoming ({} : Env)
        (some { phone_number := "p", language_step := "target",
                ui_lang := some "en", source_lang := some "en",
                plan := "FREE", free_used := 0 })
        "p" "english" 0 none).sent = [Body.targetDiff "en"]) := by
  refine ⟨?_, ?_, ?_⟩
  · have h1 : Srv0.Reach
        { phone_number := "p", language_step := "target", ui_lang := some "en",
          source_lang := some "en", plan := "FREE", free_used := 0 } :=
      Srv0.Reach.msg _ _ ({} : Env) "1" 0 none (Srv0.Reach.init "p") (by decide)
    have h2 : Srv0.Reach
        { phone_number := "p", language_step := "gender", ui_lang := some "en",
          source_lang := some "en", target_lang := some "es", plan := "FREE",
          free_used := 0 } :=
      Srv0.Reach.msg _ _ ({} : Env) "2" 0 none h1 (by decide)
    exact langs_differ_invariant.1 _ h2 "en" "es" rfl rfl
  · exact (langs_differ_invariant.2 ({} : Env)
      { phone_number := "p", language_step := "target", ui_lang := some "en",
        source_lang := some "en", plan := "FREE", free_used := 0 }
      "p" "english" { name := "English", code := "en" }
      (by decide) (by decide) (by decide) rfl (by decide) rfl 0 none).1
  · exact (langs_differ_invariant.2 ({} : Env)
      { phone_number := "p", language_step := "target", ui_lang := some "en",
        source_lang := some "en", plan := "FREE", free_used := 0 }
      "p" "english" { name := "English", code := "en" }
      (by decide) (by decide) (by decide) rfl (by decide) rfl 0 none).2

end WhatsappBot
